import Mathlib

/-!
Verification of the reactive power-estimation engine of the powercalc
integration, shallowly embedded from
custom_components/powercalc/sensors/power.py and
custom_components/powercalc/const.py.

Numeric values (Python Decimal) are modelled as rationals.  Host services
that the engine calls out to (template rendering, the Decimal constructor
of the host) are modelled as function-valued fields of the sensor record.
-/

namespace Powercalc

/-- State label STATE_ON from homeassistant.const. -/
def STATE_ON : String := "on"

/-- State label STATE_UNKNOWN from homeassistant.const. -/
def STATE_UNKNOWN : String := "unknown"

/-- State label STATE_UNAVAILABLE from homeassistant.const. -/
def STATE_UNAVAILABLE : String := "unavailable"

/-- DUMMY_ENTITY_ID from const.py line 26. -/
def DUMMY_ENTITY_ID : String := "sensor.dummy"

/-- OFF_STATES from const.py line 149: (STATE_OFF, STATE_NOT_HOME, STATE_STANDBY, STATE_UNAVAILABLE). -/
def OFF_STATES : List String := ["off", "not_home", "standby", "unavailable"]

/-- MODE_LINEAR from const.py (also the value of CalculationStrategy.LINEAR). -/
def MODE_LINEAR : String := "linear"

/-- MODE_FIXED from const.py (also the value of CalculationStrategy.FIXED). -/
def MODE_FIXED : String := "fixed"

/-- MODE_WLED from const.py (also the value of CalculationStrategy.WLED). -/
def MODE_WLED : String := "wled"

/-- Datatype of homeassistant.core.State restricted to the two fields the engine reads. -/
structure HAState where
  entity_id : String
  state : String
  deriving DecidableEq

/-- Element of the list returned by get_entities_to_track: either a plain
entity id string, or a TrackTemplate (modelled by its source text). -/
inductive TrackedEntity where
  | entity (entity_id : String)
  | trackedTemplate (source : String)
  deriving DecidableEq

/-- PowerCalculationStrategyInterface as consumed by VirtualPowerSensor:
calculate returns Optional Decimal, can_calculate_standby a bool, and
get_entities_to_track a list of entity ids and TrackTemplates. -/
structure StrategyModel where
  calculate : HAState → Option ℚ
  can_calculate_standby : Bool
  entities_to_track : List TrackedEntity

/-- Value stored under CONF_CALCULATION_ENABLED_CONDITION: either a raw
string (in which case is_calculation_enabled substitutes the token and
wraps it in a Template) or an already built Template. -/
inductive CalcCondition where
  | str (source : String)
  | tmpl (source : String)

/-- VirtualPowerSensor, restricted to the fields read by the recompute
cycle (power.py lines 270 to 315).  The field power is self._power;
render models Template.async_render of the host interpreted as a bool;
decimal_ok models whether the host Decimal constructor succeeds on a
value (its value is preserved when it succeeds). -/
structure VirtualPowerSensor where
  power_calculator : StrategyModel
  source_entity : String
  standby_power : ℚ
  standby_power_on : ℚ
  multiply_factor : Option ℚ
  multiply_factor_standby : Bool
  ignore_unavailable_state : Bool
  rounding_digits : ℕ
  power : Option ℚ
  calculation_enabled_condition : Option CalcCondition
  render : String → Bool
  decimal_ok : ℚ → Bool

/-- VirtualPowerSensor.__init__ (power.py line 295): self._power starts as None. -/
def mkVirtualPowerSensor (power_calculator : StrategyModel) (source_entity : String)
    (standby_power standby_power_on : ℚ) (multiply_factor : Option ℚ)
    (multiply_factor_standby ignore_unavailable_state : Bool) (rounding_digits : ℕ)
    (calculation_enabled_condition : Option CalcCondition)
    (render : String → Bool) (decimal_ok : ℚ → Bool) : VirtualPowerSensor :=
  { power_calculator := power_calculator
    source_entity := source_entity
    standby_power := standby_power
    standby_power_on := standby_power_on
    multiply_factor := multiply_factor
    multiply_factor_standby := multiply_factor_standby
    ignore_unavailable_state := ignore_unavailable_state
    rounding_digits := rounding_digits
    power := none
    calculation_enabled_condition := calculation_enabled_condition
    render := render
    decimal_ok := decimal_ok }

/-- Python truthiness of the float-or-None field self._multiply_factor:
None and 0.0 are falsy. -/
def floatTruthy : Option ℚ → Bool
  | none => false
  | some m => decide (m ≠ 0)

/-- Property available (power.py lines 484 to 487): self._power is not None. -/
def available (s : VirtualPowerSensor) : Bool :=
  s.power.isSome

/-- Method _has_valid_state (power.py lines 407 to 421). -/
def hasValidState (s : VirtualPowerSensor) (st : Option HAState) : Bool :=
  if s.source_entity = DUMMY_ENTITY_ID then true
  else
    match st with
    | none => false
    | some st0 =>
      if st0.state = STATE_UNKNOWN then false
      else if s.ignore_unavailable_state = false ∧ st0.state = STATE_UNAVAILABLE then false
      else true

/-- Method is_calculation_enabled (power.py lines 457 to 467): with no
configured condition the answer is True; a condition configured as a raw
string first has every occurrence of the token [[entity]] replaced by
the source entity id and is then rendered; an already built Template is
rendered as is. -/
def isCalculationEnabled (s : VirtualPowerSensor) : Bool :=
  match s.calculation_enabled_condition with
  | none => true
  | some (CalcCondition.str source) =>
      s.render (source.replace "[[entity]]" s.source_entity)
  | some (CalcCondition.tmpl source) => s.render source

/-- Standby branch of calculate_power (power.py lines 427 to 434).  When
can_calculate_standby holds and the strategy returns None, the Python
code raises an uncaught TypeError when it multiplies or converts None;
this is the error case.  The final Decimal conversion sits outside any
try block, so a failure there is likewise an uncaught exception. -/
def standbyPathCalc (s : VirtualPowerSensor) (st : HAState) : Except Unit (Option ℚ) :=
  let sp : Option ℚ :=
    if s.power_calculator.can_calculate_standby then s.power_calculator.calculate st
    else some s.standby_power
  match sp with
  | none => Except.error ()
  | some sp0 =>
    let sp1 :=
      if s.multiply_factor_standby && floatTruthy s.multiply_factor then
        sp0 * s.multiply_factor.getD 1
      else sp0
    if s.decimal_ok sp1 then Except.ok (some sp1) else Except.error ()

/-- Arithmetic of the active branch of calculate_power (power.py lines
440 to 447): apply the multiplier when truthy, then add standby_power_on
(itself multiplied when multiply_factor_standby and the multiplier are
both truthy) when standby_power_on is nonzero. -/
def activeValue (s : VirtualPowerSensor) (v : ℚ) : ℚ :=
  let p1 := if floatTruthy s.multiply_factor then v * s.multiply_factor.getD 1 else v
  if s.standby_power_on ≠ 0 then
    p1 + (if s.multiply_factor_standby && floatTruthy s.multiply_factor then
            s.standby_power_on * s.multiply_factor.getD 1
          else s.standby_power_on)
  else p1

/-- Active branch of calculate_power (power.py lines 436 to 455): a None
strategy result propagates as None; the final Decimal conversion is
wrapped in try/except DecimalException and a failure yields None. -/
def activePathCalc (s : VirtualPowerSensor) (st : HAState) : Except Unit (Option ℚ) :=
  match s.power_calculator.calculate st with
  | none => Except.ok none
  | some v =>
    if s.decimal_ok (activeValue s v) then Except.ok (some (activeValue s v))
    else Except.ok none

/-- Method calculate_power (power.py lines 423 to 455): the standby
branch is taken when the state label is in OFF_STATES or calculation is
not enabled. -/
def calculatePower (s : VirtualPowerSensor) (st : HAState) : Except Unit (Option ℚ) :=
  if st.state ∈ OFF_STATES ∨ isCalculationEnabled s = false then standbyPathCalc s st
  else activePathCalc s st

/-- Multiplier actually applied on the standby branch: the configured
factor exactly when multiply_factor_standby is set and the factor is
truthy, and 1 otherwise. -/
def standbyMultiplier (s : VirtualPowerSensor) : ℚ :=
  if s.multiply_factor_standby && floatTruthy s.multiply_factor then s.multiply_factor.getD 1
  else 1

/-- Round half to even of a rational to an integer, the rounding used by
round() on a Python Decimal (context default ROUND_HALF_EVEN). -/
def roundHalfEven (q : ℚ) : ℤ :=
  if q - ⌊q⌋ < 1/2 then ⌊q⌋
  else if 1/2 < q - ⌊q⌋ then ⌊q⌋ + 1
  else if ⌊q⌋ % 2 = 0 then ⌊q⌋ else ⌊q⌋ + 1

/-- round(value, digits) on a Decimal (power.py line 391): round half to
even at the given number of fractional digits. -/
def roundTo (q : ℚ) (d : ℕ) : ℚ :=
  (roundHalfEven (q * 10 ^ d) : ℚ) / 10 ^ d

/-- Placeholder substitution of _update_power_sensor (power.py lines 376
to 377): when the source entity is the dummy entity, the state is
replaced by State(source_entity, STATE_ON). -/
def adjustedState (s : VirtualPowerSensor) (st : Option HAState) : Option HAState :=
  if s.source_entity = DUMMY_ENTITY_ID then some { entity_id := s.source_entity, state := STATE_ON }
  else st

/-- Method _update_power_sensor (power.py lines 372 to 405): one
recompute cycle.  Returns the sensor after the cycle together with the
bool return value of the method; an uncaught exception inside
calculate_power is the error case.  The branch for a valid missing state
is unreachable (validity of a missing state requires the dummy source,
and the dummy source replaces the state). -/
def updatePowerSensor (s : VirtualPowerSensor) (st : Option HAState) :
    Except Unit (VirtualPowerSensor × Bool) :=
  let st1 := adjustedState s st
  if hasValidState s st1 = false then Except.ok ({ s with power := none }, false)
  else
    match st1 with
    | none => Except.error ()
    | some st2 =>
      match calculatePower s st2 with
      | Except.error e => Except.error e
      | Except.ok p =>
        let p2 := p.map fun q => roundTo q s.rounding_digits
        Except.ok ({ s with power := p2 }, p2.isSome)

/-- Observable outcome of one recompute cycle: the stored power and the
bool result, or none when the cycle raised. -/
def updateOutcome (s : VirtualPowerSensor) (st : Option HAState) : Option (Option ℚ × Bool) :=
  match updatePowerSensor s st with
  | Except.ok r => some (r.1.power, r.2)
  | Except.error _ => none

/-- Power value a completed cycle stores, factored out of
_update_power_sensor: none when the validity check fails or the strategy
gives no estimate, and the rounded value otherwise. -/
def cycleResult (s : VirtualPowerSensor) (st : Option HAState) : Except Unit (Option ℚ) :=
  let st1 := adjustedState s st
  if hasValidState s st1 = false then Except.ok none
  else
    match st1 with
    | none => Except.error ()
    | some st2 =>
      (calculatePower s st2).map fun p => p.map fun q => roundTo q s.rounding_digits

/-- Value of a completed cycle, defaulting to none on the error case. -/
def okValue : Except Unit (Option ℚ) → Option ℚ
  | Except.ok q => q
  | Except.error _ => none

/-- Sequential processing of recompute triggers by one estimator
instance: each event runs _update_power_sensor on the sensor; a cycle
that raises leaves the sensor unchanged (the exception escapes before
self._power is assigned). -/
def runUpdates (s : VirtualPowerSensor) : List (Option HAState) → VirtualPowerSensor
  | [] => s
  | ev :: rest =>
    match updatePowerSensor s ev with
    | Except.ok r => runUpdates r.1 rest
    | Except.error _ => runUpdates s rest

/-- Direct entity ids among get_entities_to_track (power.py lines 340 to
342): the elements that are strings. -/
def track_entities_of (ets : List TrackedEntity) : List String :=
  ets.filterMap fun e =>
    match e with
    | TrackedEntity.entity i => some i
    | TrackedEntity.trackedTemplate _ => none

/-- TrackTemplates among get_entities_to_track (power.py lines 351 to
355). -/
def track_templates_of (ets : List TrackedEntity) : List String :=
  ets.filterMap fun e =>
    match e with
    | TrackedEntity.trackedTemplate t => some t
    | TrackedEntity.entity _ => none

/-- State-change watch list of async_added_to_hass (power.py lines 340
to 345): the direct entity ids, defaulting to the source entity when
there are none. -/
def effective_track_entities (ets : List TrackedEntity) (source : String) : List String :=
  let te := track_entities_of ets
  if te.isEmpty then [source] else te

/-- Strategy-relevant slice of the sensor configuration dict.  mode is
the value under CONF_MODE when truthy (the empty string is falsy);
linear, fixed and wled are the truthiness of the respective strategy
blocks. -/
structure SensorConfig where
  mode : Option String
  linear : Bool
  fixed : Bool
  wled : Bool

/-- Function select_calculation_strategy (power.py lines 228 to 243). -/
def select_calculation_strategy (c : SensorConfig) : Option String :=
  match c.mode with
  | some m => some m
  | none =>
    if c.linear then some MODE_LINEAR
    else if c.fixed then some MODE_FIXED
    else if c.wled then some MODE_WLED
    else none

/-- Function is_fully_configured (power.py lines 246 to 253). -/
def is_fully_configured (c : SensorConfig) : Bool :=
  if c.fixed then true
  else if c.linear then true
  else if c.wled then true
  else false

/-- Power profile handed back by discovery; only supported_modes is read
by the modelled code (power.py line 127). -/
structure PowerProfile where
  supported_modes : List String

/-- Errors create_virtual_power_sensor can abort with in the modelled
region: ModelNotSupported re-raised from discovery, UnsupportedMode when
no mode can be selected, and an uncaught host exception (IndexError on
an empty supported_modes list). -/
inductive SetupError where
  | modelNotSupported
  | unsupportedMode
  | hostError
  deriving DecidableEq

/-- Profile discovery and mode resolution of create_virtual_power_sensor
(power.py lines 110 to 138).  The discovery argument is the outcome of
the external profile lookup (get_power_profile or discovery_info): an
optional profile, or ModelNotSupported as the error.  A raised
ModelNotSupported is re-raised exactly when is_fully_configured is
false; when it is absorbed, power_profile stays None.  A mode selected
from the config wins; otherwise the first supported mode of the profile
is used; if no mode remains, UnsupportedMode is raised. -/
def resolveProfileAndMode (c : SensorConfig) (discovery : Except Unit (Option PowerProfile)) :
    Except SetupError (Option PowerProfile × String) :=
  match discovery with
  | Except.ok profile =>
    match select_calculation_strategy c, profile with
    | none, some p =>
      match p.supported_modes with
      | [] => Except.error SetupError.hostError
      | m0 :: _ => Except.ok (profile, m0)
    | none, none => Except.error SetupError.unsupportedMode
    | some m, _ => Except.ok (profile, m)
  | Except.error _ =>
    if is_fully_configured c then
      match select_calculation_strategy c with
      | none => Except.error SetupError.unsupportedMode
      | some m => Except.ok (none, m)
    else Except.error SetupError.modelNotSupported

/-- Strategy that always produces the fixed value v and cannot calculate
standby power. -/
def fixedCalc (v : ℚ) : StrategyModel :=
  { calculate := fun _ => some v
    can_calculate_standby := false
    entities_to_track := [] }

/-- Strategy that declines to produce a value (NoEstimate every cycle). -/
def nilCalc : StrategyModel :=
  { calculate := fun _ => none
    can_calculate_standby := false
    entities_to_track := [] }

/-- Baseline concrete sensor used by witnesses: real source entity, no
multipliers, no standby overrides, precision 2, no enabling condition,
host conversions always succeed. -/
def baseSensor : VirtualPowerSensor :=
  { power_calculator := nilCalc
    source_entity := "light.test"
    standby_power := 0
    standby_power_on := 0
    multiply_factor := none
    multiply_factor_standby := false
    ignore_unavailable_state := false
    rounding_digits := 2
    power := none
    calculation_enabled_condition := none
    render := fun _ => true
    decimal_ok := fun _ => true }

/-- Source state with label on. -/
def stateOn : HAState := { entity_id := "light.test", state := "on" }

/-- Source state with label off. -/
def stateOff : HAState := { entity_id := "light.test", state := "off" }

/-- Source state with label unknown. -/
def stateUnknown : HAState := { entity_id := "light.test", state := "unknown" }

/-- Source state with label unavailable. -/
def stateUnavailable : HAState := { entity_id := "light.test", state := "unavailable" }

/-- Sensor that has already published 5 W and whose strategy now returns
NoEstimate. -/
def c1sensor : VirtualPowerSensor :=
  { baseSensor with power := some 5 }

/-- The multiplier-on-standby example configuration of the spec:
multiply_factor 2, multiply_factor_standby true, standby_power 0.5. -/
def c3sensor : VirtualPowerSensor :=
  { baseSensor with
    standby_power := 1/2
    multiply_factor := some 2
    multiply_factor_standby := true }

/-- Active-path example configuration: fixed strategy value 5,
multiply_factor 2 with multiply_factor_standby, standby_power_on 3. -/
def c4sensor : VirtualPowerSensor :=
  { baseSensor with
    power_calculator := fixedCalc 5
    multiply_factor := some 2
    multiply_factor_standby := true
    standby_power_on := 3 }

/-- Sensor with a fixed strategy value 5 used for the run-level witness. -/
def c5sensor : VirtualPowerSensor :=
  { baseSensor with power_calculator := fixedCalc 5 }

/-- Single-trigger event list for the run-level witness. -/
def c5events : List (Option HAState) := [some stateOn]

/-- Rounding example configuration of the spec: fixed strategy value 50,
precision 4. -/
def c6sensor : VirtualPowerSensor :=
  { baseSensor with
    power_calculator := fixedCalc 50
    rounding_digits := 4 }

/-- Configuration with only a fixed strategy block. -/
def cfgFixedOnly : SensorConfig :=
  { mode := none, linear := false, fixed := true, wled := false }

/-- Configuration with no mode and no strategy block. -/
def cfgEmpty : SensorConfig :=
  { mode := none, linear := false, fixed := false, wled := false }

/-! Helper lemmas about rounding. -/

theorem roundHalfEven_intCast (z : ℤ) : roundHalfEven (z : ℚ) = z := by
  unfold roundHalfEven
  rw [Int.floor_intCast]
  norm_num

theorem roundTo_intCast (z : ℤ) (d : ℕ) : roundTo (z : ℚ) d = z := by
  unfold roundTo
  have h1 : ((z : ℚ)) * 10 ^ d = ((z * 10 ^ d : ℤ) : ℚ) := by push_cast; ring
  rw [h1, roundHalfEven_intCast]
  push_cast
  field_simp

theorem roundTo_fifty (d : ℕ) : roundTo 50 d = 50 := by
  have h : (50 : ℚ) = ((50 : ℤ) : ℚ) := by norm_num
  rw [h, roundTo_intCast]

theorem roundTo_one (d : ℕ) : roundTo 1 d = 1 := by
  have h : (1 : ℚ) = ((1 : ℤ) : ℚ) := by norm_num
  rw [h, roundTo_intCast]

theorem roundHalfEven_close (q : ℚ) : |q - roundHalfEven q| ≤ 1/2 := by
  have hf : ((⌊q⌋ : ℚ)) ≤ q := Int.floor_le q
  have hf2 : q < ⌊q⌋ + 1 := Int.lt_floor_add_one q
  unfold roundHalfEven
  split_ifs with h1 h2 h3 <;> rw [abs_le] <;> constructor <;> push_cast <;> linarith

theorem roundHalfEven_tie_even (q : ℚ) (h : |q - roundHalfEven q| = 1/2) :
    roundHalfEven q % 2 = 0 := by
  have hf : ((⌊q⌋ : ℚ)) ≤ q := Int.floor_le q
  have hf2 : q < ⌊q⌋ + 1 := Int.lt_floor_add_one q
  unfold roundHalfEven at h ⊢
  split_ifs at h ⊢ with h1 h2 h3
  · rw [abs_of_nonneg (by linarith)] at h
    linarith
  · rw [abs_of_nonpos (by push_cast; linarith)] at h
    push_cast at h
    linarith
  · exact h3
  · omega

/-! Helper lemmas about one recompute cycle and runs of cycles. -/

theorem cycleResult_set_power (s : VirtualPowerSensor) (p : Option ℚ) (st : Option HAState) :
    cycleResult { s with power := p } st = cycleResult s st := rfl

theorem update_eq_cycleResult (s : VirtualPowerSensor) (st : Option HAState) :
    updatePowerSensor s st =
      (cycleResult s st).map fun p => (({ s with power := p } : VirtualPowerSensor), p.isSome) := by
  unfold updatePowerSensor cycleResult
  cases h : hasValidState s (adjustedState s st) with
  | false => simp [h, Except.map]
  | true =>
    simp only [h]
    cases adjustedState s st with
    | none => simp [Except.map]
    | some st2 =>
      cases hc : calculatePower s st2 with
      | error e => simp [hc, Except.map]
      | ok p => simp [hc, Except.map]

theorem cycleResult_of_valid (s : VirtualPowerSensor) (st : HAState)
    (hnd : s.source_entity ≠ DUMMY_ENTITY_ID)
    (hval : hasValidState s (some st) = true) :
    cycleResult s (some st) =
      (calculatePower s st).map fun p => p.map fun q => roundTo q s.rounding_digits := by
  unfold cycleResult
  have ha : adjustedState s (some st) = some st := by
    unfold adjustedState
    rw [if_neg hnd]
  rw [ha]
  simp [hval]

theorem lastIsSome_of_ne_nil {α : Type} : ∀ (l : List α), l ≠ [] → ∃ a, l.getLast? = some a := by
  intro l
  induction l with
  | nil => intro h; exact absurd rfl h
  | cons a t ih =>
    intro _
    cases t with
    | nil => exact ⟨a, rfl⟩
    | cons b t2 =>
      obtain ⟨c, hc⟩ := ih (by simp)
      exact ⟨c, by rw [List.getLast?_cons_cons]; exact hc⟩

theorem memOf_getLast? {α : Type} : ∀ (l : List α) (a : α), l.getLast? = some a → a ∈ l := by
  intro l
  induction l with
  | nil => intro a h; simp at h
  | cons b t ih =>
    intro a h
    cases t with
    | nil =>
      simp only [List.getLast?_singleton, Option.some.injEq] at h
      simp [h]
    | cons c t2 =>
      rw [List.getLast?_cons_cons] at h
      exact List.mem_cons_of_mem b (ih a h)

theorem runUpdates_cons (s : VirtualPowerSensor) (ev : Option HAState)
    (rest : List (Option HAState)) :
    runUpdates s (ev :: rest) =
      match updatePowerSensor s ev with
      | Except.ok r => runUpdates r.1 rest
      | Except.error _ => runUpdates s rest := rfl

theorem runUpdates_last :
    ∀ (evs : List (Option HAState)) (s : VirtualPowerSensor) (last : Option HAState),
      evs.getLast? = some last →
      (∀ ev ∈ evs, ∃ q, cycleResult s ev = Except.ok q) →
      runUpdates s evs = { s with power := okValue (cycleResult s last) } := by
  intro evs
  induction evs with
  | nil => intro s last hlast _; simp at hlast
  | cons ev rest ih =>
    intro s last hlast hok
    obtain ⟨q, hq⟩ := hok ev (List.mem_cons_self ev rest)
    have hupd : updatePowerSensor s ev = Except.ok ({ s with power := q }, q.isSome) := by
      rw [update_eq_cycleResult, hq]
      rfl
    have hrun : runUpdates s (ev :: rest) = runUpdates { s with power := q } rest := by
      rw [runUpdates_cons, hupd]
    cases rest with
    | nil =>
      simp only [List.getLast?_singleton, Option.some.injEq] at hlast
      subst hlast
      rw [hrun, hq]
      rfl
    | cons b t =>
      rw [List.getLast?_cons_cons] at hlast
      have hok2 : ∀ ev2 ∈ b :: t, ∃ q2, cycleResult { s with power := q } ev2 = Except.ok q2 := by
        intro ev2 h2
        rw [cycleResult_set_power]
        exact hok ev2 (List.mem_cons_of_mem ev h2)
      have := ih { s with power := q } last hlast hok2
      rw [hrun, this, cycleResult_set_power]

theorem standby_sp1_eq (s : VirtualPowerSensor) (v : ℚ) :
    (if s.multiply_factor_standby && floatTruthy s.multiply_factor then
       v * s.multiply_factor.getD 1 else v) = v * standbyMultiplier s := by
  unfold standbyMultiplier
  by_cases hc : (s.multiply_factor_standby && floatTruthy s.multiply_factor) = true
  · rw [if_pos hc, if_pos hc]
  · rw [if_neg hc, if_neg hc, mul_one]

/-! Claim C1. -/

/-- Claim C1, counterexample: a sensor that has published 5 W takes the
active path (valid on state, no enabling condition, so calculation
enabled) and its strategy returns NoEstimate (None); the cycle does not
leave the published value untouched: the stored power becomes None (the
sensor turns unavailable), not the previous some 5. -/
theorem claim1_counterexample :
    c1sensor.power = some 5
    ∧ available c1sensor = true
    ∧ c1sensor.power_calculator.calculate stateOn = none
    ∧ updateOutcome c1sensor (some stateOn) = some (none, false)
    ∧ ¬ (updateOutcome c1sensor (some stateOn)).map Prod.fst = some c1sensor.power := by
  refine ⟨rfl, rfl, rfl, by decide, by decide⟩

/-- Claim C1 as amended: for every recompute cycle that takes the active
path (source state valid, its label not off-like, calculation enabled),
if the strategy calculate returns NoEstimate (None), the cycle stores
None as the power (overwriting any previously published value), returns
False, and the estimator transitions to Unavailable. -/
theorem claim1_noEstimate_publishes_absent (s : VirtualPowerSensor) (st : HAState)
    (hnd : s.source_entity ≠ DUMMY_ENTITY_ID)
    (hval : hasValidState s (some st) = true)
    (hoff : st.state ∉ OFF_STATES)
    (hen : isCalculationEnabled s = true)
    (hv : s.power_calculator.calculate st = none) :
    updatePowerSensor s (some st) = Except.ok ({ s with power := none }, false)
    ∧ available { s with power := none } = false := by
  have hcp : calculatePower s st = Except.ok none := by
    unfold calculatePower
    rw [if_neg]
    · unfold activePathCalc
      rw [hv]
    · push_neg
      exact ⟨hoff, by simp [hen]⟩
  constructor
  · rw [update_eq_cycleResult, cycleResult_of_valid s st hnd hval, hcp]
    rfl
  · rfl

/-- Claim C1, witness for the amended theorem at the concrete sensor that
had published 5 W. -/
theorem claim1_witness :
    updatePowerSensor c1sensor (some stateOn) = Except.ok ({ c1sensor with power := none }, false)
    ∧ available { c1sensor with power := none } = false :=
  claim1_noEstimate_publishes_absent c1sensor stateOn (by decide) (by decide) (by decide) rfl rfl

/-! Claim C2. -/

/-- Claim C2: on a non-placeholder source, the state is judged invalid
(the cycle publishes Absent and aborts) exactly when the state is
missing, its label is unknown, or its label is unavailable while
ignore_unavailable_state is false; with ignore_unavailable_state true
and label unavailable the state is valid and the cycle proceeds through
calculate_power (the standby branch, since unavailable is an off-like
label). -/
theorem claim2_validity (s : VirtualPowerSensor) (st? : Option HAState)
    (hnd : s.source_entity ≠ DUMMY_ENTITY_ID) :
    (hasValidState s st? = false ↔
      st? = none ∨ ∃ st0, st? = some st0 ∧
        (st0.state = STATE_UNKNOWN ∨
         (st0.state = STATE_UNAVAILABLE ∧ s.ignore_unavailable_state = false)))
    ∧ (hasValidState s st? = false →
        updatePowerSensor s st? = Except.ok ({ s with power := none }, false))
    ∧ (∀ st0, st? = some st0 → st0.state = STATE_UNAVAILABLE →
        s.ignore_unavailable_state = true →
        hasValidState s st? = true
        ∧ calculatePower s st0 = standbyPathCalc s st0
        ∧ updatePowerSensor s st? =
            (calculatePower s st0).map fun p =>
              (({ s with power := p.map fun q => roundTo q s.rounding_digits } : VirtualPowerSensor),
               (p.map fun q => roundTo q s.rounding_digits).isSome)) := by
  refine ⟨?_, ?_, ?_⟩
  · unfold hasValidState
    rw [if_neg hnd]
    cases st? with
    | none => simp
    | some st0 =>
      dsimp only
      constructor
      · intro hfalse
        right
        refine ⟨st0, rfl, ?_⟩
        by_cases h1 : st0.state = STATE_UNKNOWN
        · exact Or.inl h1
        · rw [if_neg h1] at hfalse
          by_cases h2 : s.ignore_unavailable_state = false ∧ st0.state = STATE_UNAVAILABLE
          · exact Or.inr ⟨h2.2, h2.1⟩
          · rw [if_neg h2] at hfalse
            exact absurd hfalse (by simp)
      · intro h
        rcases h with h | ⟨st1, heq, hcase⟩
        · exact absurd h (by simp)
        · injection heq with heq2
          subst heq2
          rcases hcase with h1 | ⟨h2, h3⟩
          · rw [if_pos h1]
          · rw [if_neg (by rw [h2]; decide), if_pos ⟨h3, h2⟩]
  · intro hfalse
    have ha : adjustedState s st? = st? := by
      unfold adjustedState
      rw [if_neg hnd]
    unfold updatePowerSensor
    rw [ha]
    simp [hfalse]
  · intro st0 heq hunav hig
    subst heq
    have hvalid : hasValidState s (some st0) = true := by
      unfold hasValidState
      rw [if_neg hnd]
      dsimp only
      rw [if_neg (by rw [hunav]; decide), if_neg (by simp [hig])]
    refine ⟨hvalid, ?_, ?_⟩
    · unfold calculatePower
      rw [if_pos (Or.inl (by rw [hunav]; decide))]
    · rw [update_eq_cycleResult, cycleResult_of_valid s st0 hnd hvalid]
      cases hcp : calculatePower s st0 with
      | error e => rfl
      | ok p => rfl

/-- Claim C2, witness: an unknown state on the baseline sensor is judged
invalid and the cycle publishes Absent. -/
theorem claim2_witness :
    hasValidState baseSensor (some stateUnknown) = false
    ∧ updatePowerSensor baseSensor (some stateUnknown) =
        Except.ok ({ baseSensor with power := none }, false) := by
  have h := claim2_validity baseSensor (some stateUnknown) (by decide)
  have h1 : hasValidState baseSensor (some stateUnknown) = false :=
    h.1.mpr (Or.inr ⟨stateUnknown, rfl, Or.inl rfl⟩)
  exact ⟨h1, h.2.1 h1⟩

/-! Claim C3. -/

/-- Claim C3: on the standby branch (off-like label or calculation
disabled) the computed value is the strategy result when the strategy
can calculate standby and the configured standby_power otherwise, and it
is multiplied by the factor exactly when multiply_factor_standby is set
and a truthy factor is configured; the spec example (multiply_factor 2,
multiply_factor_standby, standby_power 0.5, precision 2) publishes 1. -/
theorem claim3_standby_path (s : VirtualPowerSensor) (st : HAState) (v : ℚ)
    (hpath : st.state ∈ OFF_STATES ∨ isCalculationEnabled s = false)
    (hbase : if s.power_calculator.can_calculate_standby then
               s.power_calculator.calculate st = some v
             else v = s.standby_power)
    (hok : s.decimal_ok (v * standbyMultiplier s) = true) :
    calculatePower s st = Except.ok (some (v * standbyMultiplier s))
    ∧ (∀ m, s.multiply_factor = some m → m ≠ 0 → s.multiply_factor_standby = true →
        standbyMultiplier s = m)
    ∧ (s.multiply_factor_standby = false ∨ s.multiply_factor = none → standbyMultiplier s = 1)
    ∧ updateOutcome c3sensor (some stateOff) = some (some 1, true) := by
  refine ⟨?_, ?_, ?_, ?_⟩
  · unfold calculatePower
    rw [if_pos hpath]
    unfold standbyPathCalc
    by_cases hcan : s.power_calculator.can_calculate_standby = true
    · rw [if_pos hcan] at hbase
      rw [if_pos hcan, hbase]
      dsimp only
      rw [standby_sp1_eq, if_pos hok]
    · rw [if_neg hcan] at hbase
      subst hbase
      rw [if_neg hcan]
      dsimp only
      rw [standby_sp1_eq, if_pos hok]
  · intro m hm hm0 hmfs
    unfold standbyMultiplier
    simp [hmfs, hm, floatTruthy, hm0]
  · intro h
    unfold standbyMultiplier
    rcases h with h | h
    · simp [h]
    · simp [h, floatTruthy]
  · have h12 : ((1/2 : ℚ)) * 2 = 1 := by norm_num
    have hout : updateOutcome c3sensor (some stateOff) =
        some (some (roundTo (1/2 * 2) 2), true) := rfl
    rw [hout, h12, roundTo_one]

/-- Claim C3, witness at the spec example configuration. -/
theorem claim3_witness :
    calculatePower c3sensor stateOff = Except.ok (some ((1/2) * standbyMultiplier c3sensor))
    ∧ standbyMultiplier c3sensor = 2 := by
  have h := claim3_standby_path c3sensor stateOff (1/2) (Or.inl (by decide)) rfl rfl
  exact ⟨h.1, h.2.1 2 rfl (by norm_num) rfl⟩

/-! Claim C4. -/

/-- Claim C4: on the active path with a strategy value v, the computed
value is v multiplied by the factor when one is configured (truthy),
plus, when standby_power_on is nonzero, standby_power_on itself
multiplied by the factor exactly when multiply_factor_standby and the
factor are both set; a failing final Decimal conversion yields None,
that is NoEstimate for the cycle. -/
theorem claim4_active_path (s : VirtualPowerSensor) (st : HAState) (v : ℚ)
    (hoff : st.state ∉ OFF_STATES)
    (hen : isCalculationEnabled s = true)
    (hv : s.power_calculator.calculate st = some v) :
    (s.decimal_ok (activeValue s v) = true →
      calculatePower s st = Except.ok (some (activeValue s v)))
    ∧ (s.decimal_ok (activeValue s v) = false →
      calculatePower s st = Except.ok none)
    ∧ (s.multiply_factor = none →
      activeValue s v = v + (if s.standby_power_on ≠ 0 then s.standby_power_on else 0))
    ∧ (∀ m, s.multiply_factor = some m → m ≠ 0 →
      activeValue s v = v * m +
        (if s.standby_power_on ≠ 0 then
          (if s.multiply_factor_standby = true then s.standby_power_on * m
           else s.standby_power_on)
         else 0)) := by
  have hactive : calculatePower s st = activePathCalc s st := by
    unfold calculatePower
    rw [if_neg]
    push_neg
    exact ⟨hoff, by simp [hen]⟩
  refine ⟨?_, ?_, ?_, ?_⟩
  · intro h
    rw [hactive]
    unfold activePathCalc
    rw [hv]
    dsimp only
    rw [if_pos h]
  · intro h
    rw [hactive]
    unfold activePathCalc
    rw [hv]
    dsimp only
    rw [if_neg (by simp [h])]
  · intro hm
    unfold activeValue
    simp only [hm, floatTruthy, Bool.false_eq_true, if_false, Bool.and_false]
    split_ifs <;> simp
  · intro m hm hm0
    unfold activeValue
    have hft : floatTruthy (some m) = true := by simp [floatTruthy, hm0]
    simp only [hm, hft, Bool.and_true, eq_self_iff_true, if_true, Option.getD_some]
    split_ifs <;> simp

/-- Claim C4, witness at the active-path example configuration: fixed
strategy value 5, factor 2, multiply_factor_standby, standby_power_on 3
give 5 times 2 plus 3 times 2, that is 16. -/
theorem claim4_witness :
    calculatePower c4sensor stateOn = Except.ok (some (activeValue c4sensor 5))
    ∧ activeValue c4sensor 5 = 16 := by
  have h := claim4_active_path c4sensor stateOn 5 (by decide) rfl rfl
  refine ⟨h.1 rfl, ?_⟩
  have h4 := h.2.2.2 2 rfl (by norm_num)
  rw [h4]
  norm_num [c4sensor, baseSensor]

/-! Claim C5. -/

/-- Claim C5: the published value is Absent (the sensor reports
unavailable) exactly when the stored power is None; after a run of
completed recompute cycles from the initial state this holds exactly
when no cycle has run, or the most recent cycle failed its validity
check or ended in NoEstimate; the constructed sensor starts Unavailable. -/
theorem claim5_absent_iff (s0 : VirtualPowerSensor) (evs : List (Option HAState))
    (h0 : s0.power = none)
    (hok : ∀ ev ∈ evs, ∃ q, cycleResult s0 ev = Except.ok q) :
    (∀ s : VirtualPowerSensor, available s = false ↔ s.power = none)
    ∧ ((runUpdates s0 evs).power = none ↔
        (evs = [] ∨ ∃ last, evs.getLast? = some last ∧ cycleResult s0 last = Except.ok none))
    ∧ (∀ ev, cycleResult s0 ev = Except.ok none ↔
        (hasValidState s0 (adjustedState s0 ev) = false
         ∨ ∃ st0, adjustedState s0 ev = some st0 ∧ calculatePower s0 st0 = Except.ok none))
    ∧ (∀ pc se sp spo mf mfs ius rd cond r dok,
        available (mkVirtualPowerSensor pc se sp spo mf mfs ius rd cond r dok) = false) := by
  refine ⟨?_, ?_, ?_, ?_⟩
  · intro s
    unfold available
    cases s.power <;> simp
  · cases evs with
    | nil => simp [runUpdates, h0]
    | cons ev rest =>
      obtain ⟨last, hlast⟩ := lastIsSome_of_ne_nil (ev :: rest) (by simp)
      rw [runUpdates_last (ev :: rest) s0 last hlast hok]
      obtain ⟨q, hq⟩ := hok last (memOf_getLast? (ev :: rest) last hlast)
      rw [hq]
      change q = none ↔ _
      constructor
      · intro h
        exact Or.inr ⟨last, hlast, by rw [hq, h]⟩
      · rintro (h | ⟨last2, hlast2, hcr⟩)
        · exact absurd h (by simp)
        · rw [hlast] at hlast2
          injection hlast2 with he
          subst he
          rw [hq] at hcr
          injection hcr
  · intro ev
    unfold cycleResult
    cases hvs : hasValidState s0 (adjustedState s0 ev) with
    | false => simp [hvs]
    | true =>
      simp only [hvs]
      cases ha : adjustedState s0 ev with
      | none => simp [ha]
      | some st2 =>
        cases hcp : calculatePower s0 st2 with
        | error e => simp [Except.map, hcp]
        | ok p => simp [Except.map, hcp]
  · intro pc se sp spo mf mfs ius rd cond r dok
    rfl

/-- Claim C5, witness: one completed cycle with a fixed strategy value 5
on the initial sensor. -/
theorem claim5_witness :
    ((runUpdates c5sensor c5events).power = none ↔
      (c5events = [] ∨ ∃ last, c5events.getLast? = some last
        ∧ cycleResult c5sensor last = Except.ok none))
    ∧ (∀ s : VirtualPowerSensor, available s = false ↔ s.power = none) := by
  have h := claim5_absent_iff c5sensor c5events rfl
    (by
      intro ev hev
      simp only [c5events, List.mem_singleton] at hev
      subst hev
      exact ⟨some (roundTo 5 2), rfl⟩)
  exact ⟨h.2.1, h.1⟩

/-! Claim C6. -/

/-- Claim C6: a cycle that produces a present value stores it rounded to
exactly rounding_digits fractional digits (the stored value times ten to
the rounding_digits is the integer chosen by round half to even, which
differs from the scaled raw value by at most one half, ties landing on
an even integer); a raw 50 rounds to 50 at precision 4 and at precision
2. -/
theorem claim6_rounding (s : VirtualPowerSensor) (st : HAState) (v : ℚ)
    (hnd : s.source_entity ≠ DUMMY_ENTITY_ID)
    (hval : hasValidState s (some st) = true)
    (hcp : calculatePower s st = Except.ok (some v)) :
    updatePowerSensor s (some st) =
      Except.ok ({ s with power := some (roundTo v s.rounding_digits) }, true)
    ∧ roundTo v s.rounding_digits * 10 ^ s.rounding_digits =
        ((roundHalfEven (v * 10 ^ s.rounding_digits) : ℚ))
    ∧ |v * 10 ^ s.rounding_digits - ((roundHalfEven (v * 10 ^ s.rounding_digits) : ℚ))| ≤ 1/2
    ∧ (|v * 10 ^ s.rounding_digits - ((roundHalfEven (v * 10 ^ s.rounding_digits) : ℚ))| = 1/2 →
        roundHalfEven (v * 10 ^ s.rounding_digits) % 2 = 0)
    ∧ roundTo 50 4 = 50 ∧ roundTo 50 2 = 50 := by
  refine ⟨?_, ?_, roundHalfEven_close _, roundHalfEven_tie_even _, roundTo_fifty 4, roundTo_fifty 2⟩
  · rw [update_eq_cycleResult, cycleResult_of_valid s st hnd hval, hcp]
    rfl
  · unfold roundTo
    exact div_mul_cancel₀ _ (by positivity)

/-- Claim C6, witness at the spec example: fixed strategy value 50 with
precision 4. -/
theorem claim6_witness :
    updatePowerSensor c6sensor (some stateOn) =
      Except.ok ({ c6sensor with power := some (roundTo 50 4) }, true)
    ∧ roundTo 50 4 = 50 ∧ roundTo 50 2 = 50 := by
  have h := claim6_rounding c6sensor stateOn 50 (by decide) (by decide) rfl
  exact ⟨h.1, h.2.2.2.2⟩

theorem fully_configured_select_isSome (c : SensorConfig) (h : is_fully_configured c = true) :
    ∃ m, select_calculation_strategy c = some m := by
  unfold is_fully_configured at h
  unfold select_calculation_strategy
  cases hm : c.mode with
  | some m => exact ⟨m, rfl⟩
  | none =>
    dsimp only
    by_cases hl : c.linear = true
    · exact ⟨MODE_LINEAR, by rw [if_pos hl]⟩
    · by_cases hf : c.fixed = true
      · exact ⟨MODE_FIXED, by rw [if_neg hl, if_pos hf]⟩
      · by_cases hw : c.wled = true
        · exact ⟨MODE_WLED, by rw [if_neg hl, if_neg hf, if_pos hw]⟩
        · exfalso
          simp [hl, hf, hw] at h

/-! Claim C7. -/

/-- Claim C7: at setup the tracked entities are partitioned into direct
entity ids and template trackers; the state-change watch list falls back
to the source entity exactly when there is no direct id, and the
estimator ends up watching the primary source alone (fallback taken and
no template subscription) exactly when the strategy returned neither a
direct id nor a template, that is the empty list. -/
theorem claim7_track_partition (ets : List TrackedEntity) (src : String) :
    (track_entities_of ets = [] → effective_track_entities ets src = [src])
    ∧ (track_entities_of ets ≠ [] → effective_track_entities ets src = track_entities_of ets)
    ∧ ((track_entities_of ets = [] ∧ track_templates_of ets = []) ↔ ets = []) := by
  refine ⟨?_, ?_, ?_⟩
  · intro h
    unfold effective_track_entities
    rw [h]
    rfl
  · intro h
    unfold effective_track_entities
    cases hte : track_entities_of ets with
    | nil => exact absurd hte h
    | cons a t => rfl
  · constructor
    · rintro ⟨h1, h2⟩
      cases ets with
      | nil => rfl
      | cons e rest =>
        cases e with
        | entity i => simp [track_entities_of, List.filterMap_cons] at h1
        | trackedTemplate t => simp [track_templates_of, List.filterMap_cons] at h2
    · rintro rfl
      exact ⟨rfl, rfl⟩

/-- Claim C7, witness at the empty tracked-entity list. -/
theorem claim7_witness :
    effective_track_entities [] "sensor.src" = ["sensor.src"]
    ∧ ((track_entities_of [] = [] ∧ track_templates_of [] = []) ↔
        ([] : List TrackedEntity) = []) := by
  have h := claim7_track_partition [] "sensor.src"
  exact ⟨h.1 rfl, h.2.2⟩

/-! Claim C8. -/

/-- Claim C8: with no configured enabling expression calculation is
always enabled; a string-typed expression has every occurrence of the
token [[entity]] replaced by the source entity id before it is rendered
(String.replace replaces every occurrence, as str.replace does); for a
non-off-like state the boolean result decides between the active and
standby branches. -/
theorem claim8_calculation_enabled (s : VirtualPowerSensor) (st : HAState) :
    (s.calculation_enabled_condition = none → isCalculationEnabled s = true)
    ∧ (∀ e, s.calculation_enabled_condition = some (CalcCondition.str e) →
        isCalculationEnabled s = s.render (e.replace "[[entity]]" s.source_entity))
    ∧ (st.state ∉ OFF_STATES →
        calculatePower s st =
          if isCalculationEnabled s = true then activePathCalc s st
          else standbyPathCalc s st) := by
  refine ⟨?_, ?_, ?_⟩
  · intro h
    unfold isCalculationEnabled
    rw [h]
  · intro e h
    unfold isCalculationEnabled
    rw [h]
  · intro hoff
    unfold calculatePower
    cases hen : isCalculationEnabled s with
    | true =>
      rw [if_neg (by push_neg; exact ⟨hoff, by simp⟩), if_pos rfl]
    | false =>
      rw [if_pos (Or.inr rfl), if_neg (by simp)]

/-- Claim C8, witness at the baseline sensor (no condition configured). -/
theorem claim8_witness :
    isCalculationEnabled baseSensor = true
    ∧ calculatePower baseSensor stateOn =
        (if isCalculationEnabled baseSensor = true then activePathCalc baseSensor stateOn
         else standbyPathCalc baseSensor stateOn) := by
  have h := claim8_calculation_enabled baseSensor stateOn
  exact ⟨h.1 rfl, h.2.2 (by decide)⟩

/-! Claim C9. -/

/-- Claim C9: a ModelNotSupported error raised by profile discovery
aborts setup with that error exactly when no manual strategy block
(fixed, linear or wled) is present; with one present the error is
absorbed, no profile is kept, and setup continues to a selected mode. -/
theorem claim9_model_not_supported (c : SensorConfig) :
    (resolveProfileAndMode c (Except.error ()) = Except.error SetupError.modelNotSupported ↔
      is_fully_configured c = false)
    ∧ (is_fully_configured c = true →
        ∃ m, resolveProfileAndMode c (Except.error ()) = Except.ok (none, m)) := by
  constructor
  · constructor
    · intro h
      by_contra hfc
      rw [Bool.not_eq_false] at hfc
      unfold resolveProfileAndMode at h
      rw [if_pos hfc] at h
      obtain ⟨m, hm⟩ := fully_configured_select_isSome c hfc
      rw [hm] at h
      exact Except.noConfusion h
    · intro hfc
      unfold resolveProfileAndMode
      rw [if_neg (by simp [hfc])]
  · intro hfc
    obtain ⟨m, hm⟩ := fully_configured_select_isSome c hfc
    refine ⟨m, ?_⟩
    unfold resolveProfileAndMode
    rw [if_pos hfc, hm]

/-- Claim C9, witness at a configuration with only a fixed block. -/
theorem claim9_witness :
    (resolveProfileAndMode cfgFixedOnly (Except.error ()) =
        Except.error SetupError.modelNotSupported ↔
      is_fully_configured cfgFixedOnly = false)
    ∧ ∃ m, resolveProfileAndMode cfgFixedOnly (Except.error ()) = Except.ok (none, m) := by
  have h := claim9_model_not_supported cfgFixedOnly
  exact ⟨h.1, h.2 rfl⟩

/-! Claim C10. -/

/-- Claim C10: strategy selection is a fixed-priority function: a truthy
mode key always wins; otherwise the first present block in the order
linear, fixed, wled decides; selection yields nothing exactly when no
mode and no block is present, and then, with no profile supplying a
mode, setup fails with UnsupportedMode. -/
theorem claim10_strategy_selection (c : SensorConfig) :
    (∀ m, c.mode = some m → select_calculation_strategy c = some m)
    ∧ (c.mode = none → c.linear = true → select_calculation_strategy c = some MODE_LINEAR)
    ∧ (c.mode = none → c.linear = false → c.fixed = true →
        select_calculation_strategy c = some MODE_FIXED)
    ∧ (c.mode = none → c.linear = false → c.fixed = false → c.wled = true →
        select_calculation_strategy c = some MODE_WLED)
    ∧ (select_calculation_strategy c = none ↔
        c.mode = none ∧ c.linear = false ∧ c.fixed = false ∧ c.wled = false)
    ∧ (select_calculation_strategy c = none →
        resolveProfileAndMode c (Except.ok none) = Except.error SetupError.unsupportedMode) := by
  refine ⟨?_, ?_, ?_, ?_, ?_, ?_⟩
  · intro m hm
    unfold select_calculation_strategy
    rw [hm]
  · intro h0 h1
    unfold select_calculation_strategy
    rw [h0]
    dsimp only
    rw [if_pos h1]
  · intro h0 h1 h2
    unfold select_calculation_strategy
    rw [h0]
    dsimp only
    rw [if_neg (by simp [h1]), if_pos h2]
  · intro h0 h1 h2 h3
    unfold select_calculation_strategy
    rw [h0]
    dsimp only
    rw [if_neg (by simp [h1]), if_neg (by simp [h2]), if_pos h3]
  · obtain ⟨mode, lin, fix, wl⟩ := c
    cases mode <;> cases lin <;> cases fix <;> cases wl <;>
      simp [select_calculation_strategy]
  · intro h
    unfold resolveProfileAndMode
    rw [h]

/-- Claim C10, witness at the empty configuration: no strategy selected
and setup fails with UnsupportedMode. -/
theorem claim10_witness :
    select_calculation_strategy cfgEmpty = none
    ∧ resolveProfileAndMode cfgEmpty (Except.ok none) =
        Except.error SetupError.unsupportedMode := by
  have h := claim10_strategy_selection cfgEmpty
  have h5 : select_calculation_strategy cfgEmpty = none :=
    h.2.2.2.2.1.mpr ⟨rfl, rfl, rfl, rfl⟩
  exact ⟨h5, h.2.2.2.2.2 h5⟩

end Powercalc
